import Mathlib

/-!
Verification development for the Monety client (AuthContext, HomePage,
LoginPage).  The stateful Firestore/Auth calls are embedded as explicit
state passing over a `DB` record; `Math.random` draws are modelled as a
stream of values in `Fin 36` (each `Math.floor(Math.random() * 36)` is
exactly such a value); thrown JavaScript errors are modelled by the
`JsError` record (`code` is the optional vendor error code, `message` the
error message).
-/

/-- Character set of the invite-code generator
(`const chars = 'ABCDEFGHIJKLMNOPQRSTUVWXYZ0123456789'`). -/
def inviteChars : String := "ABCDEFGHIJKLMNOPQRSTUVWXYZ0123456789"

def inviteCharsList : List Char := inviteChars.toList

/-- `chars.charAt(i)` for the draw `i = Math.floor(Math.random() * chars.length)`;
the draw is always in range, so the default is never used. -/
def charAt (i : Fin 36) : Char := inviteCharsList.getD i.val 'A'

/-- `generateInviteCode`: the string `'MP'` followed by six random characters
of `inviteChars`; `rand` is the random stream and `pos` the index of the first
draw this call consumes (draws `pos`, `pos+1`, …, `pos+5`). -/
def generateInviteCode (rand : Nat → Fin 36) (pos : Nat) : String :=
  String.mk ('M' :: 'P' :: (List.range 6).map (fun i => charAt (rand (pos + i))))

/-- A user document of the `users` collection, with the fields written by
`register` (`serverTimestamp()` is modelled as a `Nat` supplied by the
environment). -/
structure UserDoc where
  email : String
  balance : Int
  inviteCode : String
  invitedBy : Option String
  totalEarned : Int
  totalWithdrawn : Int
  role : String
  createdAt : Nat
deriving DecidableEq

/-- An invite record of the `invites` collection. -/
structure InviteDoc where
  inviterId : String
  invitedId : String
  level : Nat
  status : String
  createdAt : Nat
deriving DecidableEq

/-- The server-side state visible to the client: the `users` collection
(document id paired with document), the `invites` collection, and the set of
e-mail addresses registered with the auth service. -/
structure DB where
  users : List (String × UserDoc)
  invites : List InviteDoc
  authEmails : List String
deriving DecidableEq

/-- `query(usersRef, where('inviteCode', '==', code))` followed by `getDocs`:
the documents whose `inviteCode` field equals `code`, in collection order. -/
def queryUsersByInviteCode (db : DB) (code : String) : List (String × UserDoc) :=
  db.users.filter (fun p => p.2.inviteCode == code)

/-- `checkInviteCodeExists`: `!snapshot.empty` for the query above. -/
def checkInviteCodeExists (code : String) (db : DB) : Bool :=
  !(queryUsersByInviteCode db code).isEmpty

/-- The `while (await checkInviteCodeExists(code) && attempts < 10)` loop of
`generateUniqueInviteCode`.  `fuel = 10 - attempts` counts the retries still
allowed, `code` is the current candidate, `pos` the index of the next unused
random draw, `ex` the existence check against the live collection.  Returns
the final code together with the number of existence checks performed.  When
`fuel` is `0` (i.e. `attempts` reached `10`) the loop condition still
evaluates the existence check once and then exits because `attempts < 10`
fails, returning the candidate unconditionally. -/
def genUniqueLoop (ex : String → Bool) (rand : Nat → Fin 36) :
    String → Nat → Nat → String × Nat
  | code, _pos, 0 => (code, 1)
  | code, pos, fuel + 1 =>
    if ex code then
      let r := genUniqueLoop ex rand (generateInviteCode rand pos) (pos + 6) fuel
      (r.1, r.2 + 1)
    else
      (code, 1)

/-- `generateUniqueInviteCode`: generate a first candidate (draws `0`–`5`),
then probe with at most `10` regenerations.  Returns the code and the number
of existence checks performed. -/
def generateUniqueInviteCode (ex : String → Bool) (rand : Nat → Fin 36) :
    String × Nat :=
  genUniqueLoop ex rand (generateInviteCode rand 0) 6 10

/-- A thrown JavaScript error: vendor SDK errors carry a `code`, errors built
with `new Error(msg)` do not. -/
structure JsError where
  code : Option String
  message : String
deriving DecidableEq

/-- `new Error(msg)`. -/
def jsNewError (msg : String) : JsError := { code := none, message := msg }

/-- A vendor SDK auth error with code `c`; the SDK's message embeds the code
(`"Firebase: Error (<code>)."`). -/
def sdkError (c : String) : JsError :=
  { code := some c, message := "Firebase: Error (" ++ c ++ ")." }

/-- Check whether `sub` occurs as a prefix of some suffix of the list. -/
def listHasInfix (sub : List Char) : List Char → Bool
  | [] => sub.isEmpty
  | c :: t => sub.isPrefixOf (c :: t) || listHasInfix sub t

/-- JavaScript `s.includes(sub)`: substring containment. -/
def strIncludes (s sub : String) : Bool := listHasInfix sub.toList s.toList

/-- JavaScript `s.toUpperCase()` (`String.toUpper`), expressed as a map of
`Char.toUpper` over the character list so that it evaluates by reduction. -/
def jsToUpper (s : String) : String := String.mk (s.data.map Char.toUpper)

/-- The `catch` clause of `login` (AuthContext): rewrite
`auth/invalid-credential` and `auth/wrong-password` to a plain
`'Email ou senha inválidos'` error, rethrow anything else unchanged. -/
def loginMapError (e : JsError) : JsError :=
  if e.code == some "auth/invalid-credential" || e.code == some "auth/wrong-password" then
    jsNewError "Email ou senha inválidos"
  else
    e

/-- The `catch` clause of `register` (AuthContext): rewrite
`auth/email-already-in-use` to a plain `'Email já cadastrado'` error,
rethrow anything else unchanged. -/
def registerMapError (e : JsError) : JsError :=
  if e.code == some "auth/email-already-in-use" then
    jsNewError "Email já cadastrado"
  else
    e

/-- The error-to-message mapping of `handleSubmit` in LoginPage: the message
stored in the `error` state for the error caught from `login`. -/
def loginPageErrorMessage (e : JsError) : String :=
  if e.code == some "auth/invalid-credential" || strIncludes e.message "invalid-credential" then
    "E-mail ou senha incorretos."
  else if e.code == some "auth/user-not-found" then
    "Usuário não encontrado."
  else if e.code == some "auth/wrong-password" then
    "Senha incorreta."
  else if e.code == some "auth/too-many-requests" then
    "Muitas tentativas falhas. Tente novamente mais tarde."
  else
    "Erro ao fazer login"

/-- End-to-end message shown by the login page when the vendor SDK raises an
auth error with code `c` during `signInWithEmailAndPassword`: the error first
passes through the `catch` of `login`, then through the page's mapping. -/
def loginPipelineMessage (c : String) : String :=
  loginPageErrorMessage (loginMapError (sdkError c))

/-- JavaScript truthiness of an optional string (`undefined` and `''` are
falsy), as used by `if (inviteCode)` and `if (inviterUid)`. -/
def jsTruthyStr (o : Option String) : Bool :=
  match o with
  | some s => !(s == "")
  | none => false

/-- `inviterUid || null`. -/
def jsOrNull (o : Option String) : Option String :=
  if jsTruthyStr o then o else none

/-- Per-call environment of `register`: the random stream, the uid the auth
service assigns to the new account, and the value of `serverTimestamp()`. -/
structure RegEnv where
  rand : Nat → Fin 36
  newUid : String
  now : Nat

/-- Outcome of a `register` call: normal return, or a thrown error; both
carry the database state after the call. -/
inductive RegResult where
  | ok : DB → RegResult
  | err : JsError → DB → RegResult
deriving DecidableEq

/-- The invite-code check at the top of `register`: when the argument is
truthy, query `users` for `inviteCode == inviteCode.toUpperCase()`, throw
`'Código de convite inválido'` on an empty result, else take the first
matching document's id. -/
def lookupInviter (db : DB) (inviteCode : Option String) : Except JsError (Option String) :=
  if jsTruthyStr inviteCode then
    match queryUsersByInviteCode db (jsToUpper (inviteCode.getD "")) with
    | [] => Except.error (jsNewError "Código de convite inválido")
    | d :: _ => Except.ok (some d.1)
  else
    Except.ok none

/-- `setDoc(doc(db, 'users', uid), data)`: keyed upsert into the `users`
collection. -/
def setDocUsers (users : List (String × UserDoc)) (uid : String) (d : UserDoc) :
    List (String × UserDoc) :=
  if users.any (fun p => p.1 == uid) then
    users.map (fun p => if p.1 == uid then (uid, d) else p)
  else
    users ++ [(uid, d)]

/-- The writes `register` performs after `createUserWithEmailAndPassword`
succeeded: generate a unique invite code against the live `users` collection,
`setDoc` the new user document, and, when an inviter was found, `addDoc` the
level-1 pending invite record.  `db1` is the state after account creation. -/
def registerAfterAuth (env : RegEnv) (db1 : DB) (inviterUid : Option String)
    (email : String) : DB :=
  let newInviteCode := (generateUniqueInviteCode (fun c => checkInviteCodeExists c db1) env.rand).1
  let newUser : UserDoc :=
    { email := email, balance := 0, inviteCode := newInviteCode,
      invitedBy := jsOrNull inviterUid, totalEarned := 0, totalWithdrawn := 0,
      role := "user", createdAt := env.now }
  let db2 : DB := { db1 with users := setDocUsers db1.users env.newUid newUser }
  if jsTruthyStr inviterUid then
    { db2 with
      invites := db2.invites ++
        [{ inviterId := inviterUid.getD "", invitedId := env.newUid, level := 1,
           status := "pending", createdAt := env.now }] }
  else
    db2

/-- `register` of AuthContext: check the invite code, create the auth account
(the service rejects an already-registered e-mail with
`auth/email-already-in-use`, modelled deterministically from `authEmails`),
then perform the Firestore writes; thrown errors pass through the `catch`
clause (`registerMapError`). -/
def register (env : RegEnv) (db : DB) (email _password : String)
    (inviteCode : Option String) : RegResult :=
  match lookupInviter db inviteCode with
  | Except.error e => RegResult.err (registerMapError e) db
  | Except.ok inviterUid =>
    if db.authEmails.contains email then
      RegResult.err (registerMapError (sdkError "auth/email-already-in-use")) db
    else
      RegResult.ok
        (registerAfterAuth env { db with authEmails := email :: db.authEmails }
          inviterUid email)

/-- Look a user document up by id (`snapshot.docs` keyed access). -/
def findUser (db : DB) (uid : String) : Option UserDoc :=
  (db.users.find? (fun p => p.1 == uid)).map (fun p => p.2)

/-- Which API family a client data access goes through: the vendor
(Firebase) SDK, or the browser `fetch` HTTP API. -/
inductive Channel where
  | vendorSDK : Channel
  | httpFetch : Channel
deriving DecidableEq

/-- A request issued by the client, with the channel it uses. -/
structure ClientRequest where
  url : String
  authHeader : String
  channel : Channel
deriving DecidableEq

/-- The request `fetchStats` of HomePage issues for the today-earnings and
new-invites statistics: `fetch('/api/stats/today', { headers: { Authorization:
Bearer <token> } })` — the browser HTTP API, not the vendor SDK. -/
def fetchStatsRequest (token : String) : ClientRequest :=
  { url := "/api/stats/today", authHeader := "Bearer " ++ token,
    channel := Channel.httpFetch }

/-- Invite-code format stated by the spec: 8 characters, prefixed `'MP'`,
remainder drawn from `inviteChars`. -/
def isInviteCodeFormatB (s : String) : Bool :=
  (s.length == 8) && (s.toList.take 2 == ['M', 'P']) &&
    (s.toList.drop 2).all (fun c => inviteCharsList.contains c)

/-- Concrete environment used to instantiate the `register` theorems: the
random stream is constantly `0`, the auth service assigns uid `"U1"`, the
server timestamp is `7`. -/
def wEnv : RegEnv := { rand := fun _ => 0, newUid := "U1", now := 7 }

/-- A pre-existing user holding invite code `"MPINV001"`. -/
def wInviter : UserDoc :=
  { email := "inv@x.com", balance := 5, inviteCode := "MPINV001", invitedBy := none,
    totalEarned := 9, totalWithdrawn := 1, role := "user", createdAt := 3 }

/-- Concrete initial database: one user (doc id `"INV1"`), no invites. -/
def wDb : DB :=
  { users := [("INV1", wInviter)], invites := [], authEmails := ["inv@x.com"] }

/-- The user document `register wEnv wDb "new@x.com" "pw" (some "mpinv001")`
creates (the constant-0 stream yields invite code `"MPAAAAAA"`). -/
def wNewUserInvite : UserDoc :=
  { email := "new@x.com", balance := 0, inviteCode := "MPAAAAAA", invitedBy := some "INV1",
    totalEarned := 0, totalWithdrawn := 0, role := "user", createdAt := 7 }

/-- The user document `register wEnv wDb "new@x.com" "pw" none` creates. -/
def wNewUserNone : UserDoc :=
  { email := "new@x.com", balance := 0, inviteCode := "MPAAAAAA", invitedBy := none,
    totalEarned := 0, totalWithdrawn := 0, role := "user", createdAt := 7 }

/-- Database state after `register wEnv wDb "new@x.com" "pw" (some "mpinv001")`. -/
def wDbInvite : DB :=
  { users := [("INV1", wInviter), ("U1", wNewUserInvite)],
    invites := [{ inviterId := "INV1", invitedId := "U1", level := 1,
                  status := "pending", createdAt := 7 }],
    authEmails := ["new@x.com", "inv@x.com"] }

/-- Database state after `register wEnv wDb "new@x.com" "pw" none`. -/
def wDbNone : DB :=
  { users := [("INV1", wInviter), ("U1", wNewUserNone)], invites := [],
    authEmails := ["new@x.com", "inv@x.com"] }

/-- A database whose single user already holds `"MPAAAAAA"` — the very code
the constant-0 random stream generates on every attempt. -/
def c1db : DB :=
  { users := [("u1",
      { email := "a@b.c", balance := 0, inviteCode := "MPAAAAAA", invitedBy := none,
        totalEarned := 0, totalWithdrawn := 0, role := "user", createdAt := 0 })],
    invites := [], authEmails := ["a@b.c"] }

theorem genUniqueLoop_count_le (ex : String → Bool) (rand : Nat → Fin 36) :
    ∀ (fuel : Nat) (code : String) (pos : Nat),
      (genUniqueLoop ex rand code pos fuel).2 ≤ fuel + 1 := by
  intro fuel
  induction fuel with
  | zero =>
    intro code pos
    simp [genUniqueLoop]
  | succ f ih =>
    intro code pos
    by_cases h : ex code
    · simpa [genUniqueLoop, h] using Nat.succ_le_succ (ih (generateInviteCode rand pos) (pos + 6))
    · simp [genUniqueLoop, h]

theorem genUniqueLoop_count_pos (ex : String → Bool) (rand : Nat → Fin 36) :
    ∀ (fuel : Nat) (code : String) (pos : Nat),
      1 ≤ (genUniqueLoop ex rand code pos fuel).2 := by
  intro fuel
  induction fuel with
  | zero => intro code pos; simp [genUniqueLoop]
  | succ f ih =>
    intro code pos
    by_cases h : ex code
    · simp [genUniqueLoop, h]
    · simp [genUniqueLoop, h]

theorem genUniqueLoop_unique_or_max (ex : String → Bool) (rand : Nat → Fin 36) :
    ∀ (fuel : Nat) (code : String) (pos : Nat),
      ex (genUniqueLoop ex rand code pos fuel).1 = false ∨
        (genUniqueLoop ex rand code pos fuel).2 = fuel + 1 := by
  intro fuel
  induction fuel with
  | zero =>
    intro code pos
    right
    simp [genUniqueLoop]
  | succ f ih =>
    intro code pos
    by_cases h : ex code
    · rcases ih (generateInviteCode rand pos) (pos + 6) with h1 | h2
      · left
        simpa [genUniqueLoop, h] using h1
      · right
        simp [genUniqueLoop, h, h2]
    · left
      simp only [genUniqueLoop, if_neg h]
      exact Bool.not_eq_true _ ▸ eq_false_of_ne_true h

theorem genUniqueLoop_output (ex : String → Bool) (rand : Nat → Fin 36) :
    ∀ (fuel pos q : Nat), ∃ p,
      (genUniqueLoop ex rand (generateInviteCode rand q) pos fuel).1 =
        generateInviteCode rand p := by
  intro fuel
  induction fuel with
  | zero =>
    intro pos q
    exact ⟨q, by simp [genUniqueLoop]⟩
  | succ f ih =>
    intro pos q
    by_cases h : ex (generateInviteCode rand q)
    · obtain ⟨p, hp⟩ := ih (pos + 6) pos
      exact ⟨p, by simp [genUniqueLoop, h, hp]⟩
    · exact ⟨q, by simp [genUniqueLoop, h]⟩

theorem charAt_contains : ∀ (i : Fin 36), inviteCharsList.contains (charAt i) = true := by
  decide

theorem isInviteCodeFormatB_generate (rand : Nat → Fin 36) (pos : Nat) :
    isInviteCodeFormatB (generateInviteCode rand pos) = true := by
  simp only [isInviteCodeFormatB, generateInviteCode, Bool.and_eq_true, beq_iff_eq]
  refine ⟨⟨?_, ?_⟩, ?_⟩
  · simp [String.length]
  · simp [String.toList]
  · simp only [String.toList, List.drop_succ_cons, List.drop_zero, List.all_eq_true]
    intro c hc
    obtain ⟨i, _, rfl⟩ := List.mem_map.mp hc
    exact charAt_contains _

/-- C9: `generateUniqueInviteCode` always terminates and always returns a
code: it is a total function, and for every sequence of answers from the
existence check it performs between 1 and 11 existence checks (the initial
candidate plus at most 10 regenerations bounded by the attempts counter). -/
theorem C9_generateUniqueInviteCode_bounded (ex : String → Bool) (rand : Nat → Fin 36) :
    1 ≤ (generateUniqueInviteCode ex rand).2 ∧ (generateUniqueInviteCode ex rand).2 ≤ 11 :=
  ⟨genUniqueLoop_count_pos ex rand 10 (generateInviteCode rand 0) 6,
   genUniqueLoop_count_le ex rand 10 (generateInviteCode rand 0) 6⟩

/-- C1 (amended): the code returned by `generateUniqueInviteCode` does not
equal any existing user's `inviteCode` — unless all 11 candidates (the
initial one plus the 10 retries allowed by the attempts counter) collided,
in which case the last candidate is returned even though its existence check
reported a collision. -/
theorem C1_amended_unique_unless_exhausted (db : DB) (rand : Nat → Fin 36) :
    checkInviteCodeExists
        (generateUniqueInviteCode (fun c => checkInviteCodeExists c db) rand).1 db = false ∨
      (generateUniqueInviteCode (fun c => checkInviteCodeExists c db) rand).2 = 11 :=
  genUniqueLoop_unique_or_max (fun c => checkInviteCodeExists c db) rand 10
    (generateInviteCode rand 0) 6

/-- C1 (counterexample): with a database whose only user already holds
`"MPAAAAAA"` and a random stream that always draws `0`, every candidate is
`"MPAAAAAA"`, all 11 existence checks report a collision, and the function
returns `"MPAAAAAA"` — a code equal to the `inviteCode` of a user already in
the `users` collection, contradicting the claimed uniqueness. -/
theorem C1_counterexample_collision_returned :
    (generateUniqueInviteCode (fun c => checkInviteCodeExists c c1db)
        (fun _ => (0 : Fin 36))).1 = "MPAAAAAA" ∧
      checkInviteCodeExists "MPAAAAAA" c1db = true := by
  constructor
  · rfl
  · rfl

theorem find?_map_replace (uid : String) (d : UserDoc) :
    ∀ (users : List (String × UserDoc)),
      users.any (fun p => p.1 == uid) = true →
      (users.map (fun p => if p.1 == uid then (uid, d) else p)).find?
          (fun p => p.1 == uid) = some (uid, d) := by
  intro users
  induction users with
  | nil => intro h; simp at h
  | cons a tl ih =>
    intro h
    by_cases ha : (a.1 == uid) = true
    · simp only [List.map_cons, if_pos ha]
      exact List.find?_cons_of_pos _ (by simp)
    · have h' : tl.any (fun p => p.1 == uid) = true := by
        simpa [List.any_cons, ha] using h
      simp only [List.map_cons, if_neg ha]
      rw [List.find?_cons_of_neg (p := fun q : String × UserDoc => q.1 == uid) _ ha]
      exact ih h'

theorem find?_setDocUsers (users : List (String × UserDoc)) (uid : String) (d : UserDoc) :
    (setDocUsers users uid d).find? (fun p => p.1 == uid) = some (uid, d) := by
  unfold setDocUsers
  by_cases h : users.any (fun p => p.1 == uid) = true
  · rw [if_pos h]
    exact find?_map_replace uid d users h
  · rw [if_neg h]
    have hnone : users.find? (fun p => p.1 == uid) = none := by
      rw [List.find?_eq_none]
      intro x hx
      intro hpx
      exact h (List.any_eq_true.mpr ⟨x, hx, hpx⟩)
    rw [List.find?_append, hnone]
    simp [List.find?]

theorem findUser_registerAfterAuth (env : RegEnv) (db1 : DB) (iu : Option String)
    (email : String) :
    findUser (registerAfterAuth env db1 iu email) env.newUid =
      some
        { email := email, balance := 0,
          inviteCode :=
            (generateUniqueInviteCode (fun c => checkInviteCodeExists c db1) env.rand).1,
          invitedBy := jsOrNull iu, totalEarned := 0, totalWithdrawn := 0,
          role := "user", createdAt := env.now } := by
  unfold registerAfterAuth findUser
  by_cases h : jsTruthyStr iu = true
  · simp only [if_pos h, find?_setDocUsers]
    rfl
  · simp only [if_neg h, find?_setDocUsers]
    rfl

theorem invites_registerAfterAuth (env : RegEnv) (db1 : DB) (iu : Option String)
    (email : String) :
    (registerAfterAuth env db1 iu email).invites =
      (if jsTruthyStr iu then
        db1.invites ++
          [{ inviterId := iu.getD "", invitedId := env.newUid, level := 1,
             status := "pending", createdAt := env.now }]
      else db1.invites) := by
  unfold registerAfterAuth
  by_cases h : jsTruthyStr iu = true
  · simp only [if_pos h]
  · simp only [if_neg h]

theorem authEmails_registerAfterAuth (env : RegEnv) (db1 : DB) (iu : Option String)
    (email : String) :
    (registerAfterAuth env db1 iu email).authEmails = db1.authEmails := by
  unfold registerAfterAuth
  by_cases h : jsTruthyStr iu = true
  · simp only [if_pos h]
  · simp only [if_neg h]

theorem register_ok_inv (env : RegEnv) (db : DB) (email pw : String)
    (codeOpt : Option String) (db' : DB)
    (h : register env db email pw codeOpt = RegResult.ok db') :
    ∃ iu, lookupInviter db codeOpt = Except.ok iu ∧
      db.authEmails.contains email = false ∧
      db' = registerAfterAuth env { db with authEmails := email :: db.authEmails } iu email := by
  unfold register at h
  split at h
  · exact absurd h (by simp)
  · next iu heq =>
      split at h
      · exact absurd h (by simp)
      · next hc =>
          exact ⟨iu, heq, by simpa using hc, (RegResult.ok.inj h).symm⟩

theorem lookupInviter_cons (db : DB) (c : String) (d0 : String × UserDoc)
    (rest : List (String × UserDoc)) (hc : c ≠ "")
    (hm : queryUsersByInviteCode db (jsToUpper c) = d0 :: rest) :
    lookupInviter db (some c) = Except.ok (some d0.1) := by
  unfold lookupInviter
  have ht : jsTruthyStr (some c) = true := by simp [jsTruthyStr, hc]
  rw [if_pos ht]
  simp only [Option.getD_some]
  rw [hm]

theorem lookupInviter_empty (db : DB) (c : String) (hc : c ≠ "")
    (hm : queryUsersByInviteCode db (jsToUpper c) = []) :
    lookupInviter db (some c) = Except.error (jsNewError "Código de convite inválido") := by
  unfold lookupInviter
  have ht : jsTruthyStr (some c) = true := by simp [jsTruthyStr, hc]
  rw [if_pos ht]
  simp only [Option.getD_some]
  rw [hm]

theorem isInviteCodeFormatB_genUnique (ex : String → Bool) (rand : Nat → Fin 36) :
    isInviteCodeFormatB (generateUniqueInviteCode ex rand).1 = true := by
  obtain ⟨p, hp⟩ := genUniqueLoop_output ex rand 10 6 0
  have h2 : (generateUniqueInviteCode ex rand).1 = generateInviteCode rand p := hp
  rw [h2]
  exact isInviteCodeFormatB_generate rand p

/-- C3: when `register` is given an invite code that matches an existing user
(with a nonempty document id, as assigned by the service), exactly one invite
record is appended to the `invites` collection, with `inviterId` the matched
user's document id, `invitedId` the new user's uid, `level` 1 and `status`
`'pending'`; and when no invite code is supplied, the `invites` collection is
unchanged. -/
theorem C3_invite_record (env : RegEnv) (db : DB) (email pw c : String)
    (d0 : String × UserDoc) (rest : List (String × UserDoc)) (db1 db2 : DB)
    (hc : c ≠ "")
    (hm : queryUsersByInviteCode db (jsToUpper c) = d0 :: rest)
    (hid : d0.1 ≠ "")
    (h1 : register env db email pw (some c) = RegResult.ok db1)
    (h2 : register env db email pw none = RegResult.ok db2) :
    db1.invites = db.invites ++
        [{ inviterId := d0.1, invitedId := env.newUid, level := 1,
           status := "pending", createdAt := env.now }] ∧
      db2.invites = db.invites := by
  constructor
  · obtain ⟨iu, hl, _, rfl⟩ := register_ok_inv env db email pw (some c) db1 h1
    rw [lookupInviter_cons db c d0 rest hc hm] at hl
    obtain rfl : some d0.1 = iu := Except.ok.inj hl
    rw [invites_registerAfterAuth]
    have ht : jsTruthyStr (some d0.1) = true := by simp [jsTruthyStr, hid]
    rw [if_pos ht]
    rfl
  · obtain ⟨iu, hl, _, rfl⟩ := register_ok_inv env db email pw none db2 h2
    obtain rfl : (none : Option String) = iu := Except.ok.inj hl
    rw [invites_registerAfterAuth]
    rfl

/-- Closed instantiation of the C3 theorem: a concrete run of `register` with
a matching invite code appends exactly the level-1 pending invite record, and
a run without a code leaves `invites` unchanged. -/
theorem C3_witness :
    queryUsersByInviteCode wDb (jsToUpper "mpinv001") = ("INV1", wInviter) :: [] ∧
      register wEnv wDb "new@x.com" "pw" (some "mpinv001") = RegResult.ok wDbInvite ∧
      register wEnv wDb "new@x.com" "pw" none = RegResult.ok wDbNone ∧
      (wDbInvite.invites = wDb.invites ++
          [{ inviterId := "INV1", invitedId := "U1", level := 1,
             status := "pending", createdAt := 7 }] ∧
        wDbNone.invites = wDb.invites) :=
  ⟨by decide, by decide, by decide,
    C3_invite_record wEnv wDb "new@x.com" "pw" "mpinv001" ("INV1", wInviter) []
      wDbInvite wDbNone (by decide) (by decide) (by decide) (by decide) (by decide)⟩

/-- C4: calling `register` with an invite code that matches no user's
`inviteCode` throws `'Código de convite inválido'` and performs no writes:
the resulting database (users, invites, auth accounts) is exactly the input
database. -/
theorem C4_invalid_code_no_writes (env : RegEnv) (db : DB) (email pw c : String)
    (hc : c ≠ "") (hm : queryUsersByInviteCode db (jsToUpper c) = []) :
    register env db email pw (some c) =
      RegResult.err (jsNewError "Código de convite inválido") db := by
  unfold register
  rw [lookupInviter_empty db c hc hm]
  rfl

/-- Closed instantiation of the C4 theorem: a concrete run with an unknown
invite code throws and leaves the database untouched. -/
theorem C4_witness :
    queryUsersByInviteCode wDb (jsToUpper "MPZZZ999") = [] ∧
      register wEnv wDb "new@x.com" "pw" (some "MPZZZ999") =
        RegResult.err (jsNewError "Código de convite inválido") wDb :=
  ⟨by decide,
    C4_invalid_code_no_writes wEnv wDb "new@x.com" "pw" "MPZZZ999" (by decide) (by decide)⟩

/-- C5: the inviter lookup compares the supplied code uppercased against the
stored `inviteCode` fields; on success the new user's document is stored with
`invitedBy` equal to the first matching document's id, and when no code is
supplied `invitedBy` is stored as `null`. -/
theorem C5_invitedBy (env : RegEnv) (db : DB) (email pw c : String)
    (d0 : String × UserDoc) (rest : List (String × UserDoc)) (db1 db2 : DB)
    (hc : c ≠ "")
    (hm : queryUsersByInviteCode db (jsToUpper c) = d0 :: rest)
    (hid : d0.1 ≠ "")
    (h1 : register env db email pw (some c) = RegResult.ok db1)
    (h2 : register env db email pw none = RegResult.ok db2) :
    (findUser db1 env.newUid).map UserDoc.invitedBy = some (some d0.1) ∧
      (findUser db2 env.newUid).map UserDoc.invitedBy = some none := by
  constructor
  · obtain ⟨iu, hl, _, rfl⟩ := register_ok_inv env db email pw (some c) db1 h1
    rw [lookupInviter_cons db c d0 rest hc hm] at hl
    obtain rfl : some d0.1 = iu := Except.ok.inj hl
    rw [findUser_registerAfterAuth]
    have : jsOrNull (some d0.1) = some d0.1 := by simp [jsOrNull, jsTruthyStr, hid]
    simp [this]
  · obtain ⟨iu, hl, _, rfl⟩ := register_ok_inv env db email pw none db2 h2
    obtain rfl : (none : Option String) = iu := Except.ok.inj hl
    rw [findUser_registerAfterAuth]
    simp [jsOrNull, jsTruthyStr]

/-- Closed instantiation of the C5 theorem at the concrete database. -/
theorem C5_witness :
    queryUsersByInviteCode wDb (jsToUpper "mpinv001") = ("INV1", wInviter) :: [] ∧
      ((findUser wDbInvite "U1").map UserDoc.invitedBy = some (some "INV1") ∧
        (findUser wDbNone "U1").map UserDoc.invitedBy = some none) :=
  ⟨by decide,
    C5_invitedBy wEnv wDb "new@x.com" "pw" "mpinv001" ("INV1", wInviter) []
      wDbInvite wDbNone (by decide) (by decide) (by decide) (by decide) (by decide)⟩

/-- C6: registration succeeds without a referral code: with the invite-code
argument omitted no lookup is performed (`lookupInviter` answers `ok none`
without consulting the `users` collection), and — provided the service
accepts the e-mail (it is not already registered) — the call returns
normally, the auth account is created and the user document is written. -/
theorem C6_register_without_code (env : RegEnv) (db : DB) (email pw : String)
    (hemail : db.authEmails.contains email = false) :
    lookupInviter db none = Except.ok none ∧
      register env db email pw none =
        RegResult.ok
          (registerAfterAuth env { db with authEmails := email :: db.authEmails } none email) ∧
      (registerAfterAuth env { db with authEmails := email :: db.authEmails }
          none email).authEmails = email :: db.authEmails ∧
      (findUser (registerAfterAuth env { db with authEmails := email :: db.authEmails }
          none email) env.newUid).isSome = true := by
  refine ⟨rfl, ?_, ?_, ?_⟩
  · unfold register
    have hl : lookupInviter db none = Except.ok none := rfl
    rw [hl]
    dsimp only
    rw [if_neg (by rw [hemail]; simp)]
  · exact authEmails_registerAfterAuth env _ none email
  · rw [findUser_registerAfterAuth]
    rfl

/-- Closed instantiation of the C6 theorem at the concrete database. -/
theorem C6_witness :
    wDb.authEmails.contains "new@x.com" = false ∧
      (lookupInviter wDb none = Except.ok none ∧
        register wEnv wDb "new@x.com" "pw" none =
          RegResult.ok
            (registerAfterAuth wEnv { wDb with authEmails := "new@x.com" :: wDb.authEmails }
              none "new@x.com") ∧
        (registerAfterAuth wEnv { wDb with authEmails := "new@x.com" :: wDb.authEmails }
            none "new@x.com").authEmails = "new@x.com" :: wDb.authEmails ∧
        (findUser (registerAfterAuth wEnv
            { wDb with authEmails := "new@x.com" :: wDb.authEmails } none "new@x.com")
          "U1").isSome = true) :=
  ⟨by decide, C6_register_without_code wEnv wDb "new@x.com" "pw" (by decide)⟩

/-- C8: every code produced by the generator is the prefix `'MP'` followed by
6 characters from `A`–`Z`, `0`–`9` (8 characters in all); the collision-probing
generator only returns such codes; and every successful `register` stores such
a code as the new user's `inviteCode` field. -/
theorem C8_invite_code_format (rand : Nat → Fin 36) (pos : Nat) (ex : String → Bool)
    (env : RegEnv) (db : DB) (email pw : String) (codeOpt : Option String) (db' : DB)
    (h : register env db email pw codeOpt = RegResult.ok db') :
    isInviteCodeFormatB (generateInviteCode rand pos) = true ∧
      isInviteCodeFormatB (generateUniqueInviteCode ex rand).1 = true ∧
      (findUser db' env.newUid).map (fun d => isInviteCodeFormatB d.inviteCode) =
        some true := by
  refine ⟨isInviteCodeFormatB_generate rand pos, isInviteCodeFormatB_genUnique ex rand, ?_⟩
  obtain ⟨iu, _, _, rfl⟩ := register_ok_inv env db email pw codeOpt db' h
  rw [findUser_registerAfterAuth]
  simp [isInviteCodeFormatB_genUnique]

/-- Closed instantiation of the C8 theorem. -/
theorem C8_witness :
    register wEnv wDb "new@x.com" "pw" none = RegResult.ok wDbNone ∧
      (isInviteCodeFormatB (generateInviteCode (fun _ => (0 : Fin 36)) 0) = true ∧
        isInviteCodeFormatB (generateUniqueInviteCode (fun _ => false) (fun _ => (0 : Fin 36))).1 = true ∧
        (findUser wDbNone "U1").map (fun d => isInviteCodeFormatB d.inviteCode) = some true) :=
  ⟨by decide,
    C8_invite_code_format (fun _ => (0 : Fin 36)) 0 (fun _ => false) wEnv wDb
      "new@x.com" "pw" none wDbNone (by decide)⟩

/-- C10: every user document created by a successful `register` call is
initialised with `balance = 0`, `totalEarned = 0`, `totalWithdrawn = 0` and
`role = 'user'`, whether or not an invite code was supplied. -/
theorem C10_initial_fields (env : RegEnv) (db : DB) (email pw : String)
    (codeOpt : Option String) (db' : DB)
    (h : register env db email pw codeOpt = RegResult.ok db') :
    (findUser db' env.newUid).map
        (fun d => (d.balance, d.totalEarned, d.totalWithdrawn, d.role)) =
      some (0, 0, 0, "user") := by
  obtain ⟨iu, _, _, rfl⟩ := register_ok_inv env db email pw codeOpt db' h
  rw [findUser_registerAfterAuth]
  rfl

/-- Closed instantiation of the C10 theorem (invite-code case). -/
theorem C10_witness :
    register wEnv wDb "new@x.com" "pw" (some "mpinv001") = RegResult.ok wDbInvite ∧
      (findUser wDbInvite "U1").map
          (fun d => (d.balance, d.totalEarned, d.totalWithdrawn, d.role)) =
        some (0, 0, 0, "user") :=
  ⟨by decide,
    C10_initial_fields wEnv wDb "new@x.com" "pw" (some "mpinv001") wDbInvite (by decide)⟩

/-- C2 (counterexample): the home page's stats request goes through the
browser HTTP `fetch` API, not the vendor SDK — refuting the claim that the
today-earnings and new-invites statistics are obtained through the vendor
SDK rather than any other channel. -/
theorem C2_counterexample_stats_not_sdk :
    (fetchStatsRequest "tok").channel = Channel.httpFetch ∧
      Channel.httpFetch ≠ Channel.vendorSDK :=
  ⟨rfl, by decide⟩

/-- C2 (amended): the home page obtains the today-earnings and new-invites
statistics by an HTTP fetch of `/api/stats/today`, authenticated with the
bearer token of the current session, and not through the vendor SDK. -/
theorem C2_amended_stats_via_http (token : String) :
    fetchStatsRequest token =
      { url := "/api/stats/today", authHeader := "Bearer " ++ token,
        channel := Channel.httpFetch } :=
  rfl

/-- C7 (counterexample): for the SDK error code `auth/wrong-password` the
login page renders the generic `'Erro ao fazer login'`, not the
`'Senha incorreta.'` the claim promises — because `login` already replaced
the SDK error by a plain `'Email ou senha inválidos'` error carrying no
code before the page's mapping ran. -/
theorem C7_counterexample_wrong_password_message :
    loginPipelineMessage "auth/wrong-password" = "Erro ao fazer login" ∧
      loginPipelineMessage "auth/wrong-password" ≠ "Senha incorreta." := by
  constructor
  · rfl
  · decide

/-- C7 (amended): `login` throws `'Email ou senha inválidos'` exactly for the
SDK codes `auth/invalid-credential` and `auth/wrong-password`, `register`
throws `'Email já cadastrado'` exactly for `auth/email-already-in-use`, and
every other SDK error passes through unchanged; end to end, the login page
renders `'Usuário não encontrado.'` for `auth/user-not-found` and
`'Muitas tentativas falhas. Tente novamente mais tarde.'` for
`auth/too-many-requests`, but renders the generic `'Erro ao fazer login'`
both for the two codes `login` rewrites and for any other code (whose
message does not contain `invalid-credential`): the page's specific messages
`'E-mail ou senha incorretos.'` and `'Senha incorreta.'` are unreachable
through the login flow. -/
theorem C7_amended_error_mapping (c : String)
    (h1 : c ≠ "auth/invalid-credential") (h2 : c ≠ "auth/wrong-password")
    (h3 : c ≠ "auth/user-not-found") (h4 : c ≠ "auth/too-many-requests")
    (h5 : c ≠ "auth/email-already-in-use")
    (hm : strIncludes (sdkError c).message "invalid-credential" = false) :
    loginMapError (sdkError "auth/invalid-credential") = jsNewError "Email ou senha inválidos" ∧
      loginMapError (sdkError "auth/wrong-password") = jsNewError "Email ou senha inválidos" ∧
      loginMapError (sdkError c) = sdkError c ∧
      registerMapError (sdkError "auth/email-already-in-use") = jsNewError "Email já cadastrado" ∧
      registerMapError (sdkError c) = sdkError c ∧
      loginPipelineMessage "auth/user-not-found" = "Usuário não encontrado." ∧
      loginPipelineMessage "auth/too-many-requests" =
        "Muitas tentativas falhas. Tente novamente mais tarde." ∧
      loginPipelineMessage "auth/invalid-credential" = "Erro ao fazer login" ∧
      loginPipelineMessage "auth/wrong-password" = "Erro ao fazer login" ∧
      loginPipelineMessage c = "Erro ao fazer login" := by
  have hMap : loginMapError (sdkError c) = sdkError c := by
    simp [loginMapError, sdkError, h1, h2]
  refine ⟨rfl, rfl, hMap, rfl, ?_, rfl, rfl, rfl, rfl, ?_⟩
  · simp [registerMapError, sdkError, h5]
  · have hm2 : strIncludes ("Firebase: Error (" ++ c ++ ").") "invalid-credential" = false := hm
    rw [loginPipelineMessage, hMap]
    simp [loginPageErrorMessage, sdkError, h1, h2, h3, h4, hm2]

/-- Closed instantiation of the C7 theorem at the SDK code
`auth/network-request-failed`. -/
theorem C7_witness :
    strIncludes (sdkError "auth/network-request-failed").message "invalid-credential" = false ∧
      loginPipelineMessage "auth/network-request-failed" = "Erro ao fazer login" :=
  ⟨by decide,
    (C7_amended_error_mapping "auth/network-request-failed" (by decide) (by decide)
      (by decide) (by decide) (by decide) (by decide)).2.2.2.2.2.2.2.2.2⟩
